import Mathlib

/-!
# Verification of the TalkingHead speech-to-animation core

Shallow embedding of `src/lib/talkinghead.mjs` (class `TalkingHead`):
the viseme timeline scheduler (`playVisemes`), the speech-input entry
point (`streamAudio`), the morph-target renderer (`setViseme`,
`setMood`), the stop operation (`stopSpeaking`), the per-frame driver
(`animate`) and teardown (`dispose`).

Modelling conventions:
* Morph-target influence weights are rationals (`ℚ`); JS numbers at the
  values used by the code (0, 1, 0.3) are exact rationals.
* `setTimeout` handles are modelled by a ghost counter `nextTimerId`:
  each registered timer receives a fresh id, mirroring the fact that
  the platform returns distinct timer handles.  A timer fires only
  while its handle is still in `visemeTimeouts`; `clearTimeout` (the
  cancel loops in the source) removes it for good.
* The audio context's clock readings (`audioCtx.currentTime`) enter as
  explicit `now : ℚ` parameters.
* The external lipsync mapper (`lipsync-en.mjs`, imported but not part
  of the sources) is an abstract pure function `String → Timeline`,
  per its interface `wordsToVisemes(text) -> {visemes, times, durations}`.
-/

/-- Result of the phoneme mapper: `{visemes, times, durations}` as
returned by `wordsToVisemes` and consumed by `playVisemes`. -/
structure Timeline where
  visemes : List String
  times : List ℚ
  durations : List ℚ

/-- An inbound speech chunk as passed to `streamAudio`:
`{ audio, words, wtimes, wdurations }` (see the comment at
`talkinghead.mjs` line 194 and the caller `handleModelAudio` in
`App.tsx`). -/
structure SpeechChunk where
  audio : List Int
  words : List String
  wtimes : List ℚ
  wdurations : List ℚ

/-- The payload a scheduled timeout callback will execute:
either `this.setViseme(viseme)` (the per-viseme timeouts) or the
terminal `this.setViseme('sil'); this.isSpeaking = false` callback. -/
inductive EvAction where
  | visemeEv (v : String)
  | endEv
deriving DecidableEq

/-- One pending `setTimeout` registration held in `visemeTimeouts`:
its ghost handle `id`, the requested delay in milliseconds (`fireAt`),
and the callback payload. -/
structure Event where
  id : Nat
  fireAt : ℚ
  action : EvAction
deriving DecidableEq

/-- The head mesh found by `showAvatar`: the morph-channel table
`morphTargetDictionary` (name → influence index, `none` on a missing
channel, mirroring `idx !== undefined` checks) and the influence
array `morphTargetInfluences` (index → weight). -/
structure HeadMesh where
  morphTargetDictionary : Option (String → Option Nat)
  morphTargetInfluences : Nat → ℚ

/-- The mutable state of a `TalkingHead` instance (the fields the
modelled operations read or write).  Render-surface and collaborator
handles are reduced to the observations the spec talks about:
`renderCount` counts `renderer.render` submissions, `rafRequested`
records that `requestAnimationFrame(this.animate)` has been issued
and not cancelled. -/
structure TalkingHead where
  headMesh : Option HeadMesh
  isSpeaking : Bool
  visemeTimeouts : List Event
  avatarMood : String
  audioCtx : Bool
  audioStartTime : ℚ
  audioBuffer : List Int
  lipsync : String → Timeline
  nextTimerId : Nat
  rafRequested : Bool
  renderCount : Nat
  rendererDisposed : Bool
  attached : Bool
  audioCtxClosed : Bool
  dynamicBonesRunning : Bool
  resizeObserved : Bool

/-- The thirteen viseme channel names reset by `setViseme`
(`talkinghead.mjs` line 254). -/
def visemeNames : List String :=
  ["aa", "E", "I", "O", "U", "PP", "SS", "DD", "FF", "kk", "nn", "RR", "sil"]

/-- `const idx = dict[name]; if (idx !== undefined) infl[idx] = w;` —
one guarded write into the influence array; a missing channel is
silently skipped. -/
def setInfluence (dict : String → Option Nat) (infl : Nat → ℚ)
    (name : String) (w : ℚ) : Nat → ℚ :=
  match dict name with
  | none => infl
  | some idx => fun j => if j = idx then w else infl j

/-- The reset loop of `setViseme`: zero the channel `viseme_<v>` for
every known viseme name `v` that the dictionary has. -/
def resetVisemes (dict : String → Option Nat) (infl : Nat → ℚ)
    (names : List String) : Nat → ℚ :=
  names.foldl (fun acc v => setInfluence dict acc ("viseme_" ++ v) 0) infl

/-- The influence array produced by `setViseme(viseme)` on a resolved
mesh: reset all known viseme channels to 0, then, unless the request
is the silence viseme, set the requested channel to 1. -/
def setVisemeInfl (dict : String → Option Nat) (infl : Nat → ℚ)
    (viseme : String) : Nat → ℚ :=
  let infl0 := resetVisemes dict infl visemeNames
  if viseme = "sil" then infl0
  else setInfluence dict infl0 ("viseme_" ++ viseme) 1

/-- `setViseme(viseme)` (`talkinghead.mjs` lines 250–264): a no-op
unless the head mesh and its morph-channel table are resolved. -/
def setViseme (s : TalkingHead) (viseme : String) : TalkingHead :=
  match s.headMesh with
  | none => s
  | some m =>
    match m.morphTargetDictionary with
    | none => s
    | some dict =>
      let m' : HeadMesh :=
        { m with morphTargetInfluences :=
            setVisemeInfl dict m.morphTargetInfluences viseme }
      { s with headMesh := some m' }

/-- The influence update of `setMood`: when a `mouthSmile` channel is
resolved, its weight becomes 0.3 for `'happy'` and 0 otherwise; with
no such channel the array is untouched (the `smileIdx !== undefined`
guard). -/
def moodInfl (dict : String → Option Nat) (infl : Nat → ℚ)
    (mood : String) : Nat → ℚ :=
  match dict "mouthSmile" with
  | none => infl
  | some idx =>
      fun j => if j = idx then (if mood = "happy" then 3/10 else 0)
               else infl j

/-- `setMood(mood)` (`talkinghead.mjs` lines 266–275): records the
mood in `this.opt.avatarMood` unconditionally, then, if the mesh and
its channel table are resolved, applies the `mouthSmile` update. -/
def setMood (s : TalkingHead) (mood : String) : TalkingHead :=
  let s1 := { s with avatarMood := mood }
  match s1.headMesh with
  | none => s1
  | some m =>
    match m.morphTargetDictionary with
    | none => s1
    | some dict =>
      let m' : HeadMesh :=
        { m with morphTargetInfluences :=
            moodInfl dict m.morphTargetInfluences mood }
      { s1 with headMesh := some m' }

/-- The per-viseme `setTimeout` registrations of `playVisemes`
(lines 234–239): the `i`-th viseme gets delay
`(times[i] + scheduleOffset) * 1000` ms and a fresh handle `n + i`. -/
def mkVisemeEvents (vs : List String) (ts : List ℚ) (off : ℚ) (n : Nat) :
    List Event :=
  match vs, ts with
  | v :: vs', t :: ts' =>
      ⟨n, (t + off) * 1000, EvAction.visemeEv v⟩ ::
        mkVisemeEvents vs' ts' off (n + 1)
  | _, _ => []

/-- `totalDuration = times[times.length-1] + durations[durations.length-1]`
(line 242).  Only meaningful for a nonempty timeline (the source
computes `NaN` on an empty one); claims about it carry nonemptiness
hypotheses. -/
def totalDuration (l : Timeline) : ℚ :=
  l.times.getLastD 0 + l.durations.getLastD 0

/-- The terminal `endTimeout` registration (lines 243–247): delay
`(totalDuration + scheduleOffset) * 1000` ms, handle `i`. -/
def endEvent (l : Timeline) (off : ℚ) (i : Nat) : Event :=
  ⟨i, (totalDuration l + off) * 1000, EvAction.endEv⟩

/-- `playVisemes(lipsync, scheduleOffset)` (lines 226–248): clear every
pending timeout and empty `visemeTimeouts`, set `isSpeaking = true`,
register one timeout per viseme, then the terminal timeout. -/
def playVisemes (s : TalkingHead) (l : Timeline) (off : ℚ) : TalkingHead :=
  { s with
      visemeTimeouts :=
        mkVisemeEvents l.visemes l.times off s.nextTimerId
          ++ [endEvent l off (s.nextTimerId + l.visemes.length)],
      isSpeaking := true,
      nextTimerId := s.nextTimerId + l.visemes.length + 1 }

/-- `streamAudio(data)` (lines 193–224): lazily create the audio
context and capture `audioStartTime`, post the samples to the playback
worklet, and — only when the chunk has words — compute the timeline
from the joined words and schedule it at
`currentTime + 0.05 - audioStartTime`.  `data.wtimes` and
`data.wdurations` are never read. -/
def streamAudio (s : TalkingHead) (data : SpeechChunk) (now : ℚ) :
    TalkingHead :=
  let s1 := if s.audioCtx then s
            else { s with audioCtx := true, audioStartTime := now }
  let s2 := { s1 with audioBuffer := s1.audioBuffer ++ data.audio }
  if data.words.isEmpty then s2
  else
    let text := String.intercalate " " data.words
    let l := s2.lipsync text
    let audioBufferDelay : ℚ := 5 / 100
    let scheduleTime := now + audioBufferDelay - s2.audioStartTime
    playVisemes s2 l scheduleTime

/-- `stopSpeaking()` (lines 277–290): clear all pending timeouts,
reset to silence, force `isSpeaking = false`, re-anchor the audio
clock when a context exists. -/
def stopSpeaking (s : TalkingHead) (now : ℚ) : TalkingHead :=
  let s1 := { s with visemeTimeouts := [] }
  let s2 := setViseme s1 "sil"
  let s3 := { s2 with isSpeaking := false }
  if s3.audioCtx then { s3 with audioStartTime := now } else s3

/-- Environment of one animation tick: whether each collaborator call
(`mixer.update`, the procedural head-movement block, and
`dynamicBones.update`) raises an exception. -/
structure TickEnv where
  mixerThrows : Bool
  headMoveThrows : Bool
  bonesThrows : Bool

/-- `animate()` (lines 292–316).  `requestAnimationFrame(this.animate)`
is issued first (line 293), so the next tick is scheduled before any
fallible step runs; the body has no try/catch, so an exception in a
step skips everything after it — in particular the final
`renderer.render` — but, per browser semantics, does not cancel the
already-requested next frame. -/
def animate (env : TickEnv) (s : TalkingHead) : TalkingHead :=
  let s1 := { s with rafRequested := true }
  if env.mixerThrows then s1
  else if env.headMoveThrows then s1
  else if s1.dynamicBonesRunning && env.bonesThrows then s1
  else { s1 with renderCount := s1.renderCount + 1 }

/-- `dispose()` (lines 318–328): clear the viseme timeouts, dispose
the renderer and detach it, close the audio context when present,
stop the secondary-motion simulation, disconnect the resize observer.
No `cancelAnimationFrame` call exists, so `rafRequested` is left
unchanged. -/
def dispose (s : TalkingHead) : TalkingHead :=
  let s1 := { s with visemeTimeouts := [] }
  let s2 := { s1 with rendererDisposed := true, attached := false }
  let s3 := if s2.audioCtx then { s2 with audioCtxClosed := true } else s2
  let s4 := { s3 with dynamicBonesRunning := false }
  { s4 with resizeObserved := false }

/-- Executing a scheduled callback's payload. -/
def runAction (s : TalkingHead) (a : EvAction) : TalkingHead :=
  match a with
  | EvAction.visemeEv v => setViseme s v
  | EvAction.endEv =>
      let s1 := setViseme s "sil"
      { s1 with isSpeaking := false }

/-- A timeout fires only while its handle is still pending: a cleared
timer (removed by one of the `clearTimeout` loops) never runs, and a
fired timer is spent. -/
def fireEvent (s : TalkingHead) (e : Event) : TalkingHead :=
  if e ∈ s.visemeTimeouts then
    runAction { s with visemeTimeouts := s.visemeTimeouts.erase e } e.action
  else s

/-- The operations that may run on the cooperative loop after a given
point in time. -/
inductive Op where
  | stream (data : SpeechChunk) (now : ℚ)
  | stop (now : ℚ)
  | mood (m : String)
  | viseme (v : String)
  | fire (e : Event)
  | tick (env : TickEnv)
  | disposeOp

/-- Interpretation of one operation. -/
def applyOp (s : TalkingHead) : Op → TalkingHead
  | Op.stream d now => streamAudio s d now
  | Op.stop now => stopSpeaking s now
  | Op.mood m => setMood s m
  | Op.viseme v => setViseme s v
  | Op.fire e => fireEvent s e
  | Op.tick env => animate env s
  | Op.disposeOp => dispose s

/-- A trace of operations, applied left to right. -/
def run (s : TalkingHead) (ops : List Op) : TalkingHead :=
  ops.foldl applyOp s

/-- Ghost well-formedness: every pending timer handle was allocated
below the fresh-handle counter.  Holds for the constructor state and
is preserved by every operation. -/
def EventsFresh (s : TalkingHead) : Prop :=
  ∀ e ∈ s.visemeTimeouts, e.id < s.nextTimerId

/-- The state set up by the constructor (`talkinghead.mjs` lines
63–125): no mesh yet, not speaking, no pending timeouts, default mood
`'neutral'`, no audio context, and the first animation frame already
requested (line 124). -/
def initialState (lips : String → Timeline) : TalkingHead :=
  { headMesh := none
    isSpeaking := false
    visemeTimeouts := []
    avatarMood := "neutral"
    audioCtx := false
    audioStartTime := 0
    audioBuffer := []
    lipsync := lips
    nextTimerId := 0
    rafRequested := true
    renderCount := 0
    rendererDisposed := false
    attached := true
    audioCtxClosed := false
    dynamicBonesRunning := false
    resizeObserved := true }

/-- Reading the resolved morph table of a state, when both the mesh
and its dictionary are present. -/
def resolvedMesh (s : TalkingHead) :
    Option ((String → Option Nat) × (Nat → ℚ)) :=
  match s.headMesh with
  | none => none
  | some m =>
    match m.morphTargetDictionary with
    | none => none
    | some dict => some (dict, m.morphTargetInfluences)

/-- Every known viseme channel that the dictionary resolves carries
weight 0. -/
def visemeChannelsZero (dict : String → Option Nat) (infl : Nat → ℚ) : Prop :=
  ∀ v ∈ visemeNames, ∀ i, dict ("viseme_" ++ v) = some i → infl i = 0

/-- Effective fire time of a registered timeout: `setTimeout` clamps a
negative requested delay to zero. -/
def effectiveFireTime (e : Event) : ℚ :=
  max 0 e.fireAt

/-- A tick environment in which no collaborator throws. -/
def calmEnv : TickEnv := ⟨false, false, false⟩

/-- A tick environment in which the skeletal-mixer update throws. -/
def throwEnv : TickEnv := ⟨true, false, false⟩

/-- A small concrete timeline: one viseme at offset 0 lasting 1 s. -/
def timelineA : Timeline := ⟨["aa"], [0], [1]⟩

/-- A concrete morph-channel table: `viseme_aa` at index 0,
`viseme_sil` at index 1, `mouthSmile` at index 5; everything else
missing. -/
def dictA : String → Option Nat :=
  fun n =>
    if n = "viseme_aa" then some 0
    else if n = "viseme_sil" then some 1
    else if n = "mouthSmile" then some 5
    else none

/-- A concrete resolved head mesh using `dictA`, all weights 7 (an
arbitrary nonzero value, so resets are observable). -/
def meshA : HeadMesh := ⟨some dictA, fun _ => 7⟩

/-- A fresh session whose mapper always yields `timelineA`. -/
def baseState : TalkingHead := initialState (fun _ => timelineA)

/-- `baseState` with the avatar mesh resolved. -/
def stateA : TalkingHead := { baseState with headMesh := some meshA }

/-- A concrete pending viseme event with handle 0. -/
def evA : Event := ⟨0, 100, EvAction.visemeEv "aa"⟩

/-- `stateA` mid-speech: one pending event, counter past its handle. -/
def stateB : TalkingHead :=
  { stateA with visemeTimeouts := [evA], nextTimerId := 1, isSpeaking := true }

/-- A concrete speech chunk with one word. -/
def chunkW : SpeechChunk := ⟨[3], ["hello"], [0], [1]⟩

/-- A concrete speech chunk with no words. -/
def chunkE : SpeechChunk := ⟨[1, 2], [], [], []⟩

/-- Same words and audio as `chunkW` but different word timings. -/
def chunkW' : SpeechChunk := ⟨[3], ["hello"], [5], [9]⟩

/-! ## Influence-array lemmas -/

theorem setInfluence_at (dict : String → Option Nat) (infl : Nat → ℚ)
    (name : String) (w : ℚ) (idx : Nat) (h : dict name = some idx) :
    setInfluence dict infl name w idx = w := by
  simp [setInfluence, h]

theorem setInfluence_untouched (dict : String → Option Nat) (infl : Nat → ℚ)
    (name : String) (w : ℚ) (i : Nat) (h : dict name ≠ some i) :
    setInfluence dict infl name w i = infl i := by
  cases hd : dict name with
  | none => simp [setInfluence, hd]
  | some idx =>
    have hne : i ≠ idx := fun he => h (he ▸ hd)
    simp [setInfluence, hd, hne]

theorem resetVisemes_untouched (dict : String → Option Nat)
    (names : List String) :
    ∀ (infl : Nat → ℚ) (i : Nat),
      (∀ v ∈ names, dict ("viseme_" ++ v) ≠ some i) →
      resetVisemes dict infl names i = infl i := by
  induction names with
  | nil => intro infl i _; rfl
  | cons v vs ih =>
    intro infl i h
    have h1 : dict ("viseme_" ++ v) ≠ some i := h v (List.mem_cons_self v vs)
    have h2 : ∀ w ∈ vs, dict ("viseme_" ++ w) ≠ some i :=
      fun w hw => h w (List.mem_cons_of_mem v hw)
    calc resetVisemes dict infl (v :: vs) i
        = resetVisemes dict (setInfluence dict infl ("viseme_" ++ v) 0) vs i :=
          rfl
      _ = setInfluence dict infl ("viseme_" ++ v) 0 i := ih _ i h2
      _ = infl i := setInfluence_untouched dict infl _ 0 i h1

theorem resetVisemes_preserve_zero (dict : String → Option Nat)
    (names : List String) :
    ∀ (infl : Nat → ℚ) (i : Nat), infl i = 0 →
      resetVisemes dict infl names i = 0 := by
  induction names with
  | nil => intro infl i h; exact h
  | cons v vs ih =>
    intro infl i h
    refine ih _ i ?_
    cases hd : dict ("viseme_" ++ v) with
    | none => simpa [setInfluence, hd] using h
    | some idx =>
      by_cases hi : i = idx
      · simp [setInfluence, hd, hi]
      · simpa [setInfluence, hd, hi] using h

theorem resetVisemes_zero (dict : String → Option Nat)
    (names : List String) :
    ∀ (infl : Nat → ℚ) (v : String) (i : Nat), v ∈ names →
      dict ("viseme_" ++ v) = some i →
      resetVisemes dict infl names i = 0 := by
  induction names with
  | nil => intro infl v i h _; exact absurd h (List.not_mem_nil v)
  | cons w ws ih =>
    intro infl v i hmem hd
    rcases List.mem_cons.mp hmem with rfl | hvs
    · refine resetVisemes_preserve_zero dict ws _ i ?_
      simp [setInfluence, hd]
    · exact ih _ v i hvs hd

theorem setVisemeInfl_one (dict : String → Option Nat) (infl : Nat → ℚ)
    (viseme : String) (idx : Nat)
    (hs : viseme ≠ "sil") (hd : dict ("viseme_" ++ viseme) = some idx) :
    setVisemeInfl dict infl viseme idx = 1 := by
  unfold setVisemeInfl
  simp only [hs, if_false]
  exact setInfluence_at dict _ _ 1 idx hd

theorem setVisemeInfl_zero (dict : String → Option Nat) (infl : Nat → ℚ)
    (viseme v : String) (i : Nat)
    (hv : v ∈ visemeNames) (hd : dict ("viseme_" ++ v) = some i)
    (hne : viseme = "sil" ∨ dict ("viseme_" ++ viseme) ≠ some i) :
    setVisemeInfl dict infl viseme i = 0 := by
  unfold setVisemeInfl
  have hz : resetVisemes dict infl visemeNames i = 0 :=
    resetVisemes_zero dict visemeNames infl v i hv hd
  rcases hne with h | h
  · simp [h, hz]
  · by_cases hs : viseme = "sil"
    · simp [hs, hz]
    · simp only [hs, if_false]
      rw [setInfluence_untouched dict _ _ 1 i h]
      exact hz

theorem setVisemeInfl_untouched (dict : String → Option Nat) (infl : Nat → ℚ)
    (viseme : String) (i : Nat)
    (h : ∀ v ∈ visemeNames, dict ("viseme_" ++ v) ≠ some i)
    (hreq : viseme = "sil" ∨ dict ("viseme_" ++ viseme) ≠ some i) :
    setVisemeInfl dict infl viseme i = infl i := by
  unfold setVisemeInfl
  have hu : resetVisemes dict infl visemeNames i = infl i :=
    resetVisemes_untouched dict visemeNames infl i h
  rcases hreq with hs | hne
  · simp [hs, hu]
  · by_cases hs : viseme = "sil"
    · simp [hs, hu]
    · simp only [hs, if_false]
      rw [setInfluence_untouched dict _ _ 1 i hne]
      exact hu

/-! ## Frame lemmas: which fields each operation leaves alone -/

theorem setViseme_frame (s : TalkingHead) (v : String) :
    (setViseme s v).visemeTimeouts = s.visemeTimeouts ∧
    (setViseme s v).nextTimerId = s.nextTimerId ∧
    (setViseme s v).isSpeaking = s.isSpeaking ∧
    (setViseme s v).audioCtx = s.audioCtx := by
  cases hm : s.headMesh with
  | none => simp [setViseme, hm]
  | some m =>
    cases hd : m.morphTargetDictionary with
    | none => simp [setViseme, hm, hd]
    | some dict => simp [setViseme, hm, hd]

theorem setMood_frame (s : TalkingHead) (m : String) :
    (setMood s m).visemeTimeouts = s.visemeTimeouts ∧
    (setMood s m).nextTimerId = s.nextTimerId ∧
    (setMood s m).isSpeaking = s.isSpeaking := by
  cases hm : s.headMesh with
  | none => simp [setMood, hm]
  | some mm =>
    cases hd : mm.morphTargetDictionary with
    | none => simp [setMood, hm, hd]
    | some dict => simp [setMood, hm, hd]

theorem runAction_frame (s : TalkingHead) (a : EvAction) :
    (runAction s a).visemeTimeouts = s.visemeTimeouts ∧
    (runAction s a).nextTimerId = s.nextTimerId := by
  cases a with
  | visemeEv v => exact ⟨(setViseme_frame s v).1, (setViseme_frame s v).2.1⟩
  | endEv => exact ⟨(setViseme_frame s "sil").1, (setViseme_frame s "sil").2.1⟩

theorem animate_frame (env : TickEnv) (s : TalkingHead) :
    (animate env s).visemeTimeouts = s.visemeTimeouts ∧
    (animate env s).nextTimerId = s.nextTimerId := by
  rcases env with ⟨m, h, b⟩
  cases m <;> cases h <;> cases b <;>
    cases hd : s.dynamicBonesRunning <;> simp [animate, hd]

theorem stopSpeaking_frame (s : TalkingHead) (now : ℚ) :
    (stopSpeaking s now).visemeTimeouts = [] ∧
    (stopSpeaking s now).nextTimerId = s.nextTimerId ∧
    (stopSpeaking s now).isSpeaking = false := by
  have h1 := setViseme_frame { s with visemeTimeouts := ([] : List Event) } "sil"
  simp only [stopSpeaking]
  split
  · exact ⟨h1.1, h1.2.1, rfl⟩
  · exact ⟨h1.1, h1.2.1, rfl⟩

theorem dispose_frame (s : TalkingHead) :
    (dispose s).visemeTimeouts = [] ∧
    (dispose s).nextTimerId = s.nextTimerId ∧
    (dispose s).rafRequested = s.rafRequested ∧
    (dispose s).renderCount = s.renderCount ∧
    (dispose s).dynamicBonesRunning = false := by
  by_cases h : s.audioCtx <;> simp [dispose, h]

/-! ## Resolved-mesh lemmas -/

theorem resolvedMesh_setViseme (s : TalkingHead)
    (dict : String → Option Nat) (infl : Nat → ℚ) (v : String)
    (h : resolvedMesh s = some (dict, infl)) :
    resolvedMesh (setViseme s v) = some (dict, setVisemeInfl dict infl v) := by
  cases hm : s.headMesh with
  | none => simp [resolvedMesh, hm] at h
  | some m =>
    cases hd : m.morphTargetDictionary with
    | none => simp [resolvedMesh, hm, hd] at h
    | some dict' =>
      simp only [resolvedMesh, hm, hd, Option.some.injEq, Prod.mk.injEq] at h
      obtain ⟨h1, h2⟩ := h
      subst h1
      simp [setViseme, resolvedMesh, hm, hd, h2]

theorem resolvedMesh_setMood (s : TalkingHead)
    (dict : String → Option Nat) (infl : Nat → ℚ) (mood : String)
    (h : resolvedMesh s = some (dict, infl)) :
    resolvedMesh (setMood s mood) = some (dict, moodInfl dict infl mood) := by
  cases hm : s.headMesh with
  | none => simp [resolvedMesh, hm] at h
  | some m =>
    cases hd : m.morphTargetDictionary with
    | none => simp [resolvedMesh, hm, hd] at h
    | some dict' =>
      simp only [resolvedMesh, hm, hd, Option.some.injEq, Prod.mk.injEq] at h
      obtain ⟨h1, h2⟩ := h
      subst h1
      simp [setMood, resolvedMesh, hm, hd, h2]

theorem resolvedMesh_none_setViseme (s : TalkingHead) (v : String)
    (h : resolvedMesh s = none) : setViseme s v = s := by
  cases hm : s.headMesh with
  | none => simp [setViseme, hm]
  | some m =>
    cases hd : m.morphTargetDictionary with
    | none => simp [setViseme, hm, hd]
    | some dict => simp [resolvedMesh, hm, hd] at h

theorem resolvedMesh_playVisemes (s : TalkingHead) (l : Timeline) (off : ℚ) :
    resolvedMesh (playVisemes s l off) = resolvedMesh s := rfl

theorem resolvedMesh_stopSpeaking (s : TalkingHead) (now : ℚ)
    (dict : String → Option Nat) (infl : Nat → ℚ)
    (h : resolvedMesh s = some (dict, infl)) :
    resolvedMesh (stopSpeaking s now) =
      some (dict, setVisemeInfl dict infl "sil") := by
  have h0 : resolvedMesh { s with visemeTimeouts := ([] : List Event) } =
      some (dict, infl) := h
  have h1 := resolvedMesh_setViseme _ dict infl "sil" h0
  simp only [stopSpeaking]
  split
  · exact h1
  · exact h1

/-! ## Scheduler lemmas: handles, pending lists and freshness -/

theorem mkVisemeEvents_id_ge (vs : List String) :
    ∀ (ts : List ℚ) (off : ℚ) (n : Nat) (e : Event),
      e ∈ mkVisemeEvents vs ts off n → n ≤ e.id := by
  induction vs with
  | nil => intro ts off n e h; simp [mkVisemeEvents] at h
  | cons v vs' ih =>
    intro ts off n e h
    cases ts with
    | nil => simp [mkVisemeEvents] at h
    | cons t ts' =>
      rcases List.mem_cons.mp h with rfl | h'
      · exact Nat.le_refl n
      · exact Nat.le_trans (Nat.le_succ n) (ih ts' off (n + 1) e h')

theorem mkVisemeEvents_id_lt (vs : List String) :
    ∀ (ts : List ℚ) (off : ℚ) (n : Nat) (e : Event),
      e ∈ mkVisemeEvents vs ts off n → e.id < n + vs.length := by
  induction vs with
  | nil => intro ts off n e h; simp [mkVisemeEvents] at h
  | cons v vs' ih =>
    intro ts off n e h
    cases ts with
    | nil => simp [mkVisemeEvents] at h
    | cons t ts' =>
      rcases List.mem_cons.mp h with rfl | h'
      · show n < n + (vs'.length + 1)
        omega
      · have h2 := ih ts' off (n + 1) e h'
        show e.id < n + (vs'.length + 1)
        omega

theorem mkVisemeEvents_action (vs : List String) :
    ∀ (ts : List ℚ) (off : ℚ) (n : Nat) (e : Event),
      e ∈ mkVisemeEvents vs ts off n → ∃ v, e.action = EvAction.visemeEv v := by
  induction vs with
  | nil => intro ts off n e h; simp [mkVisemeEvents] at h
  | cons v vs' ih =>
    intro ts off n e h
    cases ts with
    | nil => simp [mkVisemeEvents] at h
    | cons t ts' =>
      rcases List.mem_cons.mp h with rfl | h'
      · exact ⟨v, rfl⟩
      · exact ih ts' off (n + 1) e h'

theorem playVisemes_pending (s : TalkingHead) (l : Timeline) (off : ℚ) :
    (playVisemes s l off).visemeTimeouts =
      mkVisemeEvents l.visemes l.times off s.nextTimerId
        ++ [endEvent l off (s.nextTimerId + l.visemes.length)] := rfl

theorem playVisemes_counter (s : TalkingHead) (l : Timeline) (off : ℚ) :
    (playVisemes s l off).nextTimerId =
      s.nextTimerId + l.visemes.length + 1 := rfl

theorem playVisemes_isSpeaking (s : TalkingHead) (l : Timeline) (off : ℚ) :
    (playVisemes s l off).isSpeaking = true := rfl

theorem playVisemes_mem_ge (s : TalkingHead) (l : Timeline) (off : ℚ)
    (e : Event) (h : e ∈ (playVisemes s l off).visemeTimeouts) :
    s.nextTimerId ≤ e.id := by
  rw [playVisemes_pending] at h
  rcases List.mem_append.mp h with h' | h'
  · exact mkVisemeEvents_id_ge l.visemes l.times off s.nextTimerId e h'
  · rcases List.mem_singleton.mp h' with rfl
    exact Nat.le_add_right _ _

theorem eventsFresh_playVisemes (s : TalkingHead) (l : Timeline) (off : ℚ) :
    EventsFresh (playVisemes s l off) := by
  intro e he
  rw [playVisemes_pending] at he
  rw [playVisemes_counter]
  rcases List.mem_append.mp he with h' | h'
  · have := mkVisemeEvents_id_lt l.visemes l.times off s.nextTimerId e h'
    omega
  · rcases List.mem_singleton.mp h' with rfl
    simp [endEvent]

theorem streamAudio_empty_frame (s : TalkingHead) (d : SpeechChunk) (now : ℚ)
    (h : d.words = []) :
    (streamAudio s d now).visemeTimeouts = s.visemeTimeouts ∧
    (streamAudio s d now).isSpeaking = s.isSpeaking ∧
    (streamAudio s d now).nextTimerId = s.nextTimerId := by
  by_cases hc : s.audioCtx <;> simp [streamAudio, hc, h]

theorem streamAudio_sched (s : TalkingHead) (d : SpeechChunk) (now : ℚ)
    (h : d.words ≠ []) :
    ∃ s2 l off, streamAudio s d now = playVisemes s2 l off ∧
      s2.nextTimerId = s.nextTimerId ∧
      s2.visemeTimeouts = s.visemeTimeouts ∧
      resolvedMesh s2 = resolvedMesh s := by
  have he : d.words.isEmpty = false := by
    cases hw : d.words with
    | nil => exact absurd hw h
    | cons a as => rfl
  by_cases hc : s.audioCtx
  · exact ⟨{ s with audioBuffer := s.audioBuffer ++ d.audio },
      s.lipsync (String.intercalate " " d.words),
      now + 5 / 100 - s.audioStartTime,
      by simp [streamAudio, hc, he], rfl, rfl, rfl⟩
  · exact ⟨{ s with audioCtx := true, audioStartTime := now, audioBuffer := s.audioBuffer ++ d.audio },
      s.lipsync (String.intercalate " " d.words),
      now + 5 / 100 - now,
      by simp [streamAudio, hc, he], rfl, rfl, rfl⟩

theorem streamAudio_mem (s : TalkingHead) (d : SpeechChunk) (now : ℚ)
    (e : Event) (h : e ∈ (streamAudio s d now).visemeTimeouts) :
    e ∈ s.visemeTimeouts ∨ s.nextTimerId ≤ e.id := by
  by_cases hw : d.words = []
  · exact Or.inl ((streamAudio_empty_frame s d now hw).1 ▸ h)
  · obtain ⟨s2, l, off, heq, hn, _, _⟩ := streamAudio_sched s d now hw
    rw [heq] at h
    exact Or.inr (hn ▸ playVisemes_mem_ge s2 l off e h)

theorem streamAudio_counter (s : TalkingHead) (d : SpeechChunk) (now : ℚ) :
    s.nextTimerId ≤ (streamAudio s d now).nextTimerId := by
  by_cases hw : d.words = []
  · exact Nat.le_of_eq ((streamAudio_empty_frame s d now hw).2.2).symm
  · obtain ⟨s2, l, off, heq, hn, _, _⟩ := streamAudio_sched s d now hw
    rw [heq, playVisemes_counter, hn]
    omega

theorem eventsFresh_streamAudio (s : TalkingHead) (d : SpeechChunk) (now : ℚ)
    (h : EventsFresh s) : EventsFresh (streamAudio s d now) := by
  by_cases hw : d.words = []
  · intro e he
    rw [(streamAudio_empty_frame s d now hw).1] at he
    rw [(streamAudio_empty_frame s d now hw).2.2]
    exact h e he
  · obtain ⟨s2, l, off, heq, _, _, _⟩ := streamAudio_sched s d now hw
    rw [heq]
    exact eventsFresh_playVisemes s2 l off

/-! ## Trace lemmas: a cancelled handle never comes back -/

theorem fireEvent_mem (s : TalkingHead) (e' e : Event)
    (h : e ∈ (fireEvent s e').visemeTimeouts) : e ∈ s.visemeTimeouts := by
  unfold fireEvent at h
  split at h
  · rw [(runAction_frame _ e'.action).1] at h
    exact List.mem_of_mem_erase h
  · exact h

theorem fireEvent_counter (s : TalkingHead) (e' : Event) :
    (fireEvent s e').nextTimerId = s.nextTimerId := by
  unfold fireEvent
  split
  · exact (runAction_frame _ e'.action).2
  · rfl

theorem applyOp_mem (s : TalkingHead) (op : Op) (e : Event)
    (h : e ∈ (applyOp s op).visemeTimeouts) :
    e ∈ s.visemeTimeouts ∨ s.nextTimerId ≤ e.id := by
  cases op with
  | stream d now =>
    simp only [applyOp] at h
    exact streamAudio_mem s d now e h
  | stop now =>
    simp only [applyOp] at h
    rw [(stopSpeaking_frame s now).1] at h
    exact absurd h (List.not_mem_nil e)
  | mood m =>
    simp only [applyOp] at h
    rw [(setMood_frame s m).1] at h
    exact Or.inl h
  | viseme v =>
    simp only [applyOp] at h
    rw [(setViseme_frame s v).1] at h
    exact Or.inl h
  | fire e' =>
    simp only [applyOp] at h
    exact Or.inl (fireEvent_mem s e' e h)
  | tick env =>
    simp only [applyOp] at h
    rw [(animate_frame env s).1] at h
    exact Or.inl h
  | disposeOp =>
    simp only [applyOp] at h
    rw [(dispose_frame s).1] at h
    exact absurd h (List.not_mem_nil e)

theorem applyOp_counter (s : TalkingHead) (op : Op) :
    s.nextTimerId ≤ (applyOp s op).nextTimerId := by
  cases op with
  | stream d now => exact streamAudio_counter s d now
  | stop now => exact Nat.le_of_eq ((stopSpeaking_frame s now).2.1).symm
  | mood m => exact Nat.le_of_eq ((setMood_frame s m).2.1).symm
  | viseme v => exact Nat.le_of_eq ((setViseme_frame s v).2.1).symm
  | fire e' => exact Nat.le_of_eq (fireEvent_counter s e').symm
  | tick env => exact Nat.le_of_eq ((animate_frame env s).2).symm
  | disposeOp => exact Nat.le_of_eq ((dispose_frame s).2.1).symm

theorem run_gone (ops : List Op) :
    ∀ (s : TalkingHead) (e : Event),
      e ∉ s.visemeTimeouts → e.id < s.nextTimerId →
      e ∉ (run s ops).visemeTimeouts ∧ e.id < (run s ops).nextTimerId := by
  induction ops with
  | nil => intro s e h1 h2; exact ⟨h1, h2⟩
  | cons op ops' ih =>
    intro s e h1 h2
    have h1' : e ∉ (applyOp s op).visemeTimeouts := fun hm =>
      (applyOp_mem s op e hm).elim h1 (fun hle => Nat.not_lt.mpr hle h2)
    have h2' : e.id < (applyOp s op).nextTimerId :=
      Nat.lt_of_lt_of_le h2 (applyOp_counter s op)
    exact ih (applyOp s op) e h1' h2'

theorem cancelled_event_never_fires (s : TalkingHead) (e : Event)
    (h1 : e ∉ s.visemeTimeouts) (h2 : e.id < s.nextTimerId) (ops : List Op) :
    e ∉ (run s ops).visemeTimeouts ∧ fireEvent (run s ops) e = run s ops := by
  obtain ⟨hm, _⟩ := run_gone ops s e h1 h2
  exact ⟨hm, by simp [fireEvent, hm]⟩

/-! ## Claim theorems -/

/-- C1: every call to `playVisemes` first cancels every currently
pending scheduled event and empties `visemeTimeouts` before
registering the new timeline's events — the pending collection
afterwards is exactly the new registrations and contains no previously
pending event; consequently, for two back-to-back `streamAudio` calls
where the second carries words, no viseme callback registered by the
first call is still pending after the second call's schedule, and
firing it is a no-op (mutating nothing) over every subsequent trace
of operations. -/
theorem C1_playVisemes_cancel_before_schedule
    (s : TalkingHead) (l : Timeline) (off : ℚ)
    (d1 d2 : SpeechChunk) (t1 t2 : ℚ)
    (hfresh : EventsFresh s) (hw2 : d2.words ≠ []) :
    ((playVisemes s l off).visemeTimeouts =
        mkVisemeEvents l.visemes l.times off s.nextTimerId
          ++ [endEvent l off (s.nextTimerId + l.visemes.length)]) ∧
    (∀ e ∈ s.visemeTimeouts, e ∉ (playVisemes s l off).visemeTimeouts) ∧
    (∀ e ∈ (streamAudio s d1 t1).visemeTimeouts, ∀ ops : List Op,
        e ∉ (run (streamAudio (streamAudio s d1 t1) d2 t2) ops).visemeTimeouts ∧
        fireEvent (run (streamAudio (streamAudio s d1 t1) d2 t2) ops) e =
          run (streamAudio (streamAudio s d1 t1) d2 t2) ops) := by
  refine ⟨playVisemes_pending s l off, ?_, ?_⟩
  · intro e he hmem
    have h1 := hfresh e he
    have h2 := playVisemes_mem_ge s l off e hmem
    omega
  · intro e he ops
    have hf1 : EventsFresh (streamAudio s d1 t1) :=
      eventsFresh_streamAudio s d1 t1 hfresh
    have hid : e.id < (streamAudio s d1 t1).nextTimerId := hf1 e he
    obtain ⟨s2, l2, off2, heq, hn, _, _⟩ :=
      streamAudio_sched (streamAudio s d1 t1) d2 t2 hw2
    have hnot : e ∉ (streamAudio (streamAudio s d1 t1) d2 t2).visemeTimeouts := by
      rw [heq]
      intro hmem
      have h3 := playVisemes_mem_ge s2 l2 off2 e hmem
      omega
    have hlt : e.id < (streamAudio (streamAudio s d1 t1) d2 t2).nextTimerId := by
      rw [heq, playVisemes_counter, hn]
      omega
    exact cancelled_event_never_fires _ e hnot hlt ops

/-- C2: after `stopSpeaking` returns, the pending-event collection is
empty, `isSpeaking` is false (set synchronously), every resolved
viseme channel has weight 0, and any event that was pending before
the call can never fire afterwards — over every subsequent trace of
operations it stays out of the pending collection and firing it is a
no-op. -/
theorem C2_stopSpeaking_cancels_all
    (s : TalkingHead) (now : ℚ)
    (dict : String → Option Nat) (infl : Nat → ℚ)
    (hmesh : resolvedMesh s = some (dict, infl)) (hfresh : EventsFresh s) :
    (stopSpeaking s now).visemeTimeouts = [] ∧
    (stopSpeaking s now).isSpeaking = false ∧
    (∃ infl', resolvedMesh (stopSpeaking s now) = some (dict, infl') ∧
        visemeChannelsZero dict infl') ∧
    (∀ e ∈ s.visemeTimeouts, ∀ ops : List Op,
        e ∉ (run (stopSpeaking s now) ops).visemeTimeouts ∧
        fireEvent (run (stopSpeaking s now) ops) e =
          run (stopSpeaking s now) ops) := by
  obtain ⟨hp, hc, hsp⟩ := stopSpeaking_frame s now
  refine ⟨hp, hsp, ?_, ?_⟩
  · refine ⟨setVisemeInfl dict infl "sil",
      resolvedMesh_stopSpeaking s now dict infl hmesh, ?_⟩
    intro v hv i hi
    exact setVisemeInfl_zero dict infl "sil" v i hv hi (Or.inl rfl)
  · intro e he ops
    have h1 : e ∉ (stopSpeaking s now).visemeTimeouts := by
      rw [hp]; exact List.not_mem_nil e
    have h2 : e.id < (stopSpeaking s now).nextTimerId := by
      rw [hc]; exact hfresh e he
    exact cancelled_event_never_fires _ e h1 h2 ops

/-- C3 (evaluating the code at the failing scenario): `dispose` clears
the viseme timeouts but contains no `cancelAnimationFrame`, so the
animation loop is NOT stopped: the outstanding frame request survives
`dispose` unchanged, and when that frame arrives the tick still runs,
submits a render of the disposed surface, and requests the next
frame — contradicting the claim that no further tick executes and no
further render is submitted. -/
theorem C3_dispose_leaves_loop_running (s : TalkingHead) :
    (dispose s).visemeTimeouts = [] ∧
    (dispose s).rafRequested = s.rafRequested ∧
    (animate calmEnv (dispose s)).renderCount = s.renderCount + 1 ∧
    (animate calmEnv (dispose s)).rafRequested = true := by
  obtain ⟨h1, _, h3, h4, h5⟩ := dispose_frame s
  refine ⟨h1, h3, ?_, ?_⟩
  · simp [animate, calmEnv, h4]
  · simp [animate, calmEnv]

/-- C4 counterexample: on a tick whose skeletal-mixer update throws,
the tick's render is NOT submitted (the render count does not
increase), contradicting the claim that a failure in steps 2–4 does
not prevent that tick's render submission. -/
theorem C4_animate_throw_skips_render_cex :
    (animate throwEnv baseState).renderCount = baseState.renderCount ∧
    (animate throwEnv baseState).renderCount ≠ baseState.renderCount + 1 := by
  constructor
  · rfl
  · decide

/-- C4 (amended): an exception thrown by the skeletal-mixer update,
the procedural-motion step, or the secondary-motion update never
prevents the NEXT tick from running — the next frame is requested
before any fallible step — but it does abort the remainder of the
current tick: that tick's render submission is skipped exactly when
one of those steps throws. -/
theorem C4_animate_throw_containment (env : TickEnv) (s : TalkingHead) :
    (animate env s).rafRequested = true ∧
    (animate env s).renderCount =
      (if env.mixerThrows || env.headMoveThrows
          || (s.dynamicBonesRunning && env.bonesThrows)
       then s.renderCount else s.renderCount + 1) := by
  rcases env with ⟨m, h, b⟩
  cases m <;> cases h <;> cases b <;>
    cases hd : s.dynamicBonesRunning <;> simp [animate, hd]

/-- C5: on a session whose mesh and morph-channel table are resolved,
for a known viseme other than silence whose channel exists (and with
distinct viseme channels bound to distinct influence indices),
`setViseme` gives the named channel weight 1 and every other known
viseme channel weight 0. -/
theorem C5_setViseme_exclusive (s : TalkingHead)
    (dict : String → Option Nat) (infl : Nat → ℚ)
    (viseme : String) (idx : Nat)
    (hmesh : resolvedMesh s = some (dict, infl))
    (hv : viseme ∈ visemeNames) (hs : viseme ≠ "sil")
    (hidx : dict ("viseme_" ++ viseme) = some idx)
    (hinj : ∀ v1 ∈ visemeNames, ∀ v2 ∈ visemeNames, ∀ i : Nat,
        dict ("viseme_" ++ v1) = some i → dict ("viseme_" ++ v2) = some i →
        v1 = v2) :
    ∃ infl', resolvedMesh (setViseme s viseme) = some (dict, infl') ∧
      infl' idx = 1 ∧
      ∀ v ∈ visemeNames, v ≠ viseme → ∀ i, dict ("viseme_" ++ v) = some i →
        infl' i = 0 := by
  refine ⟨setVisemeInfl dict infl viseme,
    resolvedMesh_setViseme s dict infl viseme hmesh,
    setVisemeInfl_one dict infl viseme idx hs hidx, ?_⟩
  intro v hv' hne i hi
  refine setVisemeInfl_zero dict infl viseme v i hv' hi (Or.inr ?_)
  intro hcontra
  exact hne (hinj v hv' viseme hv i hi hcontra)

/-- C6: for a scheduled nonempty timeline with total duration `D ≥ 0`
and schedule offset `S ≥ 0`, `playVisemes` registers exactly one
terminal callback, at requested delay `(D + S) * 1000` ms, whose
effective fire time is exactly that delay (hence no earlier than
`D + S`), and whose execution forces `isSpeaking = false` and weight 0
on every resolved viseme channel. -/
theorem C6_terminal_silence_event (s : TalkingHead) (l : Timeline) (S : ℚ)
    (hne : l.visemes ≠ []) (hS : 0 ≤ S) (hD : 0 ≤ totalDuration l) :
    ((playVisemes s l S).visemeTimeouts.filter
        (fun e => decide (e.action = EvAction.endEv))) =
      [endEvent l S (s.nextTimerId + l.visemes.length)] ∧
    effectiveFireTime (endEvent l S (s.nextTimerId + l.visemes.length)) =
      (totalDuration l + S) * 1000 ∧
    (fireEvent (playVisemes s l S)
        (endEvent l S (s.nextTimerId + l.visemes.length))).isSpeaking = false ∧
    (∀ dict infl, resolvedMesh s = some (dict, infl) →
        ∃ infl', resolvedMesh (fireEvent (playVisemes s l S)
            (endEvent l S (s.nextTimerId + l.visemes.length))) =
              some (dict, infl') ∧
          visemeChannelsZero dict infl') := by
  have hmem : endEvent l S (s.nextTimerId + l.visemes.length) ∈
      (playVisemes s l S).visemeTimeouts := by
    rw [playVisemes_pending]
    exact List.mem_append_right _ (List.mem_singleton.mpr rfl)
  have hrw : fireEvent (playVisemes s l S)
      (endEvent l S (s.nextTimerId + l.visemes.length)) =
      { setViseme { playVisemes s l S with
          visemeTimeouts := ((playVisemes s l S).visemeTimeouts.erase
            (endEvent l S (s.nextTimerId + l.visemes.length))) } "sil" with
        isSpeaking := false } := by
    unfold fireEvent
    rw [if_pos hmem]
    rfl
  refine ⟨?_, ?_, ?_, ?_⟩
  · rw [playVisemes_pending, List.filter_append]
    have h1 : (mkVisemeEvents l.visemes l.times S s.nextTimerId).filter
        (fun e => decide (e.action = EvAction.endEv)) = [] := by
      rw [List.filter_eq_nil_iff]
      intro a ha
      obtain ⟨v, hv⟩ :=
        mkVisemeEvents_action l.visemes l.times S s.nextTimerId a ha
      simp [hv]
    rw [h1]
    simp [endEvent]
  · have hnn : (0:ℚ) ≤ (totalDuration l + S) * 1000 :=
      mul_nonneg (add_nonneg hD hS) (by norm_num)
    simp only [effectiveFireTime, endEvent]
    exact max_eq_right hnn
  · rw [hrw]
  · intro dict infl hmesh
    have hX : resolvedMesh { playVisemes s l S with
        visemeTimeouts := ((playVisemes s l S).visemeTimeouts.erase
          (endEvent l S (s.nextTimerId + l.visemes.length))) } =
        some (dict, infl) := hmesh
    refine ⟨setVisemeInfl dict infl "sil", ?_, ?_⟩
    · rw [hrw]
      exact resolvedMesh_setViseme _ dict infl "sil" hX
    · intro v hv i hi
      exact setVisemeInfl_zero dict infl "sil" v i hv hi (Or.inl rfl)

/-- C7: a `streamAudio` chunk whose word list is empty schedules
nothing — `visemeTimeouts` is unchanged (and no timer handle is
allocated) — and leaves `isSpeaking` unchanged. -/
theorem C7_empty_chunk_no_schedule (s : TalkingHead) (d : SpeechChunk)
    (now : ℚ) (h : d.words = []) :
    (streamAudio s d now).visemeTimeouts = s.visemeTimeouts ∧
    (streamAudio s d now).isSpeaking = s.isSpeaking ∧
    (streamAudio s d now).nextTimerId = s.nextTimerId :=
  streamAudio_empty_frame s d now h

/-- C8 counterexample: with the head mesh unresolved, `setMood` is not
a no-op as claimed — it still records the requested mood in
`opt.avatarMood`, so the state changes. -/
theorem C8_setMood_not_noop_cex :
    baseState.headMesh = none ∧
    (setMood baseState "happy").avatarMood = "happy" ∧
    baseState.avatarMood = "neutral" ∧
    setMood baseState "happy" ≠ baseState := by
  refine ⟨rfl, rfl, rfl, fun h => ?_⟩
  have h2 := congrArg TalkingHead.avatarMood h
  simp [setMood, baseState, initialState] at h2

/-- C8 (amended): if the head mesh or its morph-channel table is not
yet resolved, `setViseme` is a no-op and `setMood` changes only the
stored mood option (no morph channel is touched); neither throws.
When the mesh is resolved but lacks the channel for a requested mood,
`setMood` again changes only the stored mood option; and `setViseme`
never writes any influence index outside the known viseme channels
the dictionary resolves — a missing requested channel is silently
skipped. -/
theorem C8_unresolved_noop_amended (s : TalkingHead) (v mood : String) :
    (resolvedMesh s = none → setViseme s v = s) ∧
    (resolvedMesh s = none → setMood s mood = { s with avatarMood := mood }) ∧
    (∀ dict infl, resolvedMesh s = some (dict, infl) →
        dict "mouthSmile" = none →
        setMood s mood = { s with avatarMood := mood }) ∧
    (∀ dict infl, resolvedMesh s = some (dict, infl) →
        ∃ infl', resolvedMesh (setViseme s v) = some (dict, infl') ∧
          ∀ i, (∀ w ∈ visemeNames, dict ("viseme_" ++ w) ≠ some i) →
            (v = "sil" ∨ dict ("viseme_" ++ v) ≠ some i) →
            infl' i = infl i) := by
  refine ⟨resolvedMesh_none_setViseme s v, ?_, ?_, ?_⟩
  · intro h
    cases hm : s.headMesh with
    | none => simp [setMood, hm]
    | some m =>
      cases hd : m.morphTargetDictionary with
      | none => simp [setMood, hm, hd]
      | some dict => simp [resolvedMesh, hm, hd] at h
  · intro dict infl hmesh hsm
    cases hm : s.headMesh with
    | none => simp [resolvedMesh, hm] at hmesh
    | some m =>
      cases hd : m.morphTargetDictionary with
      | none => simp [resolvedMesh, hm, hd] at hmesh
      | some dict' =>
        simp only [resolvedMesh, hm, hd, Option.some.injEq,
          Prod.mk.injEq] at hmesh
        obtain ⟨h1, h2⟩ := hmesh
        subst h1
        simp [setMood, hm, hd, moodInfl, hsm]
        rw [← hd]
  · intro dict infl hmesh
    refine ⟨setVisemeInfl dict infl v,
      resolvedMesh_setViseme s dict infl v hmesh, ?_⟩
    intro i hall hreq
    exact setVisemeInfl_untouched dict infl v i hall hreq

/-- C9: mood state and viseme state are written by disjoint
operations: on a resolved mesh whose `mouthSmile` index is not shared
with any known viseme channel, `setMood` leaves every viseme
channel's weight unchanged and `setViseme` (of a known viseme) leaves
the `mouthSmile` weight unchanged. -/
theorem C9_mood_viseme_orthogonal (s : TalkingHead) (mood viseme : String)
    (dict : String → Option Nat) (infl : Nat → ℚ)
    (hmesh : resolvedMesh s = some (dict, infl))
    (hv : viseme ∈ visemeNames)
    (hdisj : ∀ i, dict "mouthSmile" = some i →
        ∀ v ∈ visemeNames, dict ("viseme_" ++ v) ≠ some i) :
    (∃ infl1, resolvedMesh (setMood s mood) = some (dict, infl1) ∧
        ∀ v ∈ visemeNames, ∀ i, dict ("viseme_" ++ v) = some i →
          infl1 i = infl i) ∧
    (∃ infl2, resolvedMesh (setViseme s viseme) = some (dict, infl2) ∧
        ∀ i, dict "mouthSmile" = some i → infl2 i = infl i) := by
  constructor
  · refine ⟨moodInfl dict infl mood,
      resolvedMesh_setMood s dict infl mood hmesh, ?_⟩
    intro v hv' i hi
    cases hsm : dict "mouthSmile" with
    | none => simp [moodInfl, hsm]
    | some k =>
      have hik : i ≠ k := fun he => hdisj k hsm v hv' (he ▸ hi)
      simp [moodInfl, hsm, hik]
  · refine ⟨setVisemeInfl dict infl viseme,
      resolvedMesh_setViseme s dict infl viseme hmesh, ?_⟩
    intro i hsm
    refine setVisemeInfl_untouched dict infl viseme i ?_ ?_
    · intro w hw
      exact hdisj i hsm w hw
    · exact Or.inr (hdisj i hsm viseme hv)

/-- C10: the viseme schedule produced by `streamAudio` depends only on
the chunk's words and the clock reading, never on `wtimes` or
`wdurations`: two calls whose chunks agree on words and audio (and
may differ arbitrarily in word timings) produce identical states —
in particular identical registered callbacks at identical fire
times. -/
theorem C10_schedule_ignores_word_timings (s : TalkingHead)
    (d1 d2 : SpeechChunk) (now : ℚ)
    (hw : d1.words = d2.words) (ha : d1.audio = d2.audio) :
    streamAudio s d1 now = streamAudio s d2 now := by
  simp only [streamAudio, hw, ha]

/-! ## Concrete witnesses -/

theorem eventsFresh_stateB : EventsFresh stateB := by
  intro e he
  have he' : e ∈ [evA] := he
  have h1 : e = evA := List.mem_singleton.mp he'
  subst h1
  decide

theorem dictA_inj : ∀ v1 ∈ visemeNames, ∀ v2 ∈ visemeNames, ∀ i : Nat,
    dictA ("viseme_" ++ v1) = some i → dictA ("viseme_" ++ v2) = some i →
    v1 = v2 := by
  intro v1 h1 v2 h2 i e1 e2
  fin_cases h1 <;> fin_cases h2 <;> simp_all [dictA] <;> omega

theorem dictA_smile_disj : ∀ i : Nat, dictA "mouthSmile" = some i →
    ∀ v ∈ visemeNames, dictA ("viseme_" ++ v) ≠ some i := by
  intro i hi v hv
  have h5 : i = 5 := by
    have hx : dictA "mouthSmile" = some 5 := rfl
    rw [hx] at hi
    exact (Option.some.inj hi).symm
  subst h5
  fin_cases hv <;> decide

/-- Concrete instance of C1: a mid-speech session with one pending
event, an empty-words chunk, then a worded chunk. -/
theorem C1_playVisemes_cancel_before_schedule_witness :
    EventsFresh stateB ∧ chunkW.words ≠ [] ∧
    (((playVisemes stateB timelineA 0).visemeTimeouts =
        mkVisemeEvents timelineA.visemes timelineA.times 0 stateB.nextTimerId
          ++ [endEvent timelineA 0
                (stateB.nextTimerId + timelineA.visemes.length)]) ∧
     (∀ e ∈ stateB.visemeTimeouts,
        e ∉ (playVisemes stateB timelineA 0).visemeTimeouts) ∧
     (∀ e ∈ (streamAudio stateB chunkE 0).visemeTimeouts, ∀ ops : List Op,
        e ∉ (run (streamAudio (streamAudio stateB chunkE 0) chunkW 0)
              ops).visemeTimeouts ∧
        fireEvent (run (streamAudio (streamAudio stateB chunkE 0) chunkW 0)
              ops) e =
          run (streamAudio (streamAudio stateB chunkE 0) chunkW 0) ops)) :=
  ⟨eventsFresh_stateB, by decide,
    C1_playVisemes_cancel_before_schedule stateB timelineA 0 chunkE chunkW 0 0
      eventsFresh_stateB (by decide)⟩

/-- Concrete instance of C2: stopping the mid-speech session. -/
theorem C2_stopSpeaking_cancels_all_witness :
    resolvedMesh stateB = some (dictA, meshA.morphTargetInfluences) ∧
    EventsFresh stateB ∧
    ((stopSpeaking stateB 0).visemeTimeouts = [] ∧
     (stopSpeaking stateB 0).isSpeaking = false ∧
     (∃ infl', resolvedMesh (stopSpeaking stateB 0) = some (dictA, infl') ∧
        visemeChannelsZero dictA infl') ∧
     (∀ e ∈ stateB.visemeTimeouts, ∀ ops : List Op,
        e ∉ (run (stopSpeaking stateB 0) ops).visemeTimeouts ∧
        fireEvent (run (stopSpeaking stateB 0) ops) e =
          run (stopSpeaking stateB 0) ops)) :=
  ⟨rfl, eventsFresh_stateB,
    C2_stopSpeaking_cancels_all stateB 0 dictA meshA.morphTargetInfluences
      rfl eventsFresh_stateB⟩

/-- Concrete instance of C5: applying viseme `aa` on the resolved
mesh. -/
theorem C5_setViseme_exclusive_witness :
    resolvedMesh stateA = some (dictA, meshA.morphTargetInfluences) ∧
    "aa" ∈ visemeNames ∧ ("aa" : String) ≠ "sil" ∧
    dictA ("viseme_" ++ "aa") = some 0 ∧
    (∀ v1 ∈ visemeNames, ∀ v2 ∈ visemeNames, ∀ i : Nat,
        dictA ("viseme_" ++ v1) = some i → dictA ("viseme_" ++ v2) = some i →
        v1 = v2) ∧
    (∃ infl', resolvedMesh (setViseme stateA "aa") = some (dictA, infl') ∧
      infl' 0 = 1 ∧
      ∀ v ∈ visemeNames, v ≠ "aa" → ∀ i, dictA ("viseme_" ++ v) = some i →
        infl' i = 0) :=
  ⟨rfl, by decide, by decide, rfl, dictA_inj,
    C5_setViseme_exclusive stateA dictA meshA.morphTargetInfluences "aa" 0 rfl
      (by decide) (by decide) rfl dictA_inj⟩

/-- Concrete instance of C6: the one-viseme timeline at offset 0. -/
theorem C6_terminal_silence_event_witness :
    timelineA.visemes ≠ [] ∧ (0:ℚ) ≤ 0 ∧ (0:ℚ) ≤ totalDuration timelineA ∧
    (((playVisemes stateA timelineA 0).visemeTimeouts.filter
        (fun e => decide (e.action = EvAction.endEv))) =
      [endEvent timelineA 0 (stateA.nextTimerId + timelineA.visemes.length)] ∧
     effectiveFireTime
        (endEvent timelineA 0 (stateA.nextTimerId + timelineA.visemes.length)) =
      (totalDuration timelineA + 0) * 1000 ∧
     (fireEvent (playVisemes stateA timelineA 0)
        (endEvent timelineA 0
          (stateA.nextTimerId + timelineA.visemes.length))).isSpeaking = false ∧
     (∀ dict infl, resolvedMesh stateA = some (dict, infl) →
        ∃ infl', resolvedMesh (fireEvent (playVisemes stateA timelineA 0)
            (endEvent timelineA 0
              (stateA.nextTimerId + timelineA.visemes.length))) =
              some (dict, infl') ∧
          visemeChannelsZero dict infl')) :=
  ⟨by decide, le_refl 0, by simp [totalDuration, timelineA],
    C6_terminal_silence_event stateA timelineA 0 (by decide) (le_refl 0)
      (by simp [totalDuration, timelineA])⟩

/-- Concrete instance of C7: a wordless chunk schedules nothing. -/
theorem C7_empty_chunk_no_schedule_witness :
    chunkE.words = [] ∧
    ((streamAudio baseState chunkE 0).visemeTimeouts =
        baseState.visemeTimeouts ∧
     (streamAudio baseState chunkE 0).isSpeaking = baseState.isSpeaking ∧
     (streamAudio baseState chunkE 0).nextTimerId = baseState.nextTimerId) :=
  ⟨rfl, C7_empty_chunk_no_schedule baseState chunkE 0 rfl⟩

/-- Concrete instance of the amended C8: on the fresh session with no
mesh, `setViseme` is the identity and `setMood` changes only the
stored mood option. -/
theorem C8_unresolved_noop_amended_witness :
    resolvedMesh baseState = none ∧
    setViseme baseState "aa" = baseState ∧
    setMood baseState "happy" = { baseState with avatarMood := "happy" } :=
  ⟨rfl, (C8_unresolved_noop_amended baseState "aa" "happy").1 rfl,
    (C8_unresolved_noop_amended baseState "aa" "happy").2.1 rfl⟩

/-- Concrete instance of C9: `dictA`'s smile index 5 is disjoint from
its viseme channel indices. -/
theorem C9_mood_viseme_orthogonal_witness :
    resolvedMesh stateA = some (dictA, meshA.morphTargetInfluences) ∧
    "aa" ∈ visemeNames ∧
    (∀ i : Nat, dictA "mouthSmile" = some i →
        ∀ v ∈ visemeNames, dictA ("viseme_" ++ v) ≠ some i) ∧
    ((∃ infl1, resolvedMesh (setMood stateA "happy") = some (dictA, infl1) ∧
        ∀ v ∈ visemeNames, ∀ i, dictA ("viseme_" ++ v) = some i →
          infl1 i = meshA.morphTargetInfluences i) ∧
     (∃ infl2, resolvedMesh (setViseme stateA "aa") = some (dictA, infl2) ∧
        ∀ i, dictA "mouthSmile" = some i →
          infl2 i = meshA.morphTargetInfluences i)) :=
  ⟨rfl, by decide, dictA_smile_disj,
    C9_mood_viseme_orthogonal stateA "happy" "aa" dictA
      meshA.morphTargetInfluences rfl (by decide) dictA_smile_disj⟩

/-- Concrete instance of C10: chunks that differ only in word timings
produce the same state. -/
theorem C10_schedule_ignores_word_timings_witness :
    chunkW.words = chunkW'.words ∧ chunkW.audio = chunkW'.audio ∧
    chunkW.wtimes ≠ chunkW'.wtimes ∧ chunkW.wdurations ≠ chunkW'.wdurations ∧
    streamAudio baseState chunkW 0 = streamAudio baseState chunkW' 0 :=
  ⟨rfl, rfl, by simp [chunkW, chunkW'], by simp [chunkW, chunkW'],
    C10_schedule_ignores_word_timings baseState chunkW chunkW' 0 rfl rfl⟩

/-- Concrete instance of C3's evaluation: disposing the fresh session
still leaves the loop running. -/
theorem C3_dispose_leaves_loop_running_witness :
    (dispose baseState).visemeTimeouts = [] ∧
    (dispose baseState).rafRequested = baseState.rafRequested ∧
    (animate calmEnv (dispose baseState)).renderCount =
      baseState.renderCount + 1 ∧
    (animate calmEnv (dispose baseState)).rafRequested = true :=
  C3_dispose_leaves_loop_running baseState

/-- Concrete instance of the amended C4: the throwing-mixer tick. -/
theorem C4_animate_throw_containment_witness :
    (animate throwEnv baseState).rafRequested = true ∧
    (animate throwEnv baseState).renderCount =
      (if throwEnv.mixerThrows || throwEnv.headMoveThrows
          || (baseState.dynamicBonesRunning && throwEnv.bonesThrows)
       then baseState.renderCount else baseState.renderCount + 1) :=
  C4_animate_throw_containment throwEnv baseState
